import Mathlib

/-!
Shallow embedding of `src/scraper/main.py` from the `da-dashboard` repository
(a Glassdoor job scraper), together with theorems settling the frozen claims
about its specification.

Modelling conventions:

* A fetched page is modelled as an immutable snapshot `PageEnv`: the page
  title, the current URL, the raw page source, and, for every CSS selector,
  the list of visible texts of the displayed elements it matches
  (`find_elements` filtered by `is_displayed`, main.py:226-231).  The
  snapshot is fixed while one metric is processed; the waiting/clicking in
  `handle_cloudflare` (main.py:140-195) therefore re-reads the same title.
* The browser `Driver` is a stream of snapshots `Nat → PageEnv` plus a fetch
  counter; each `driver.get` (one navigation) consumes the next snapshot.
  `PageEnv.navRaises` models a transport-level exception raised by
  `driver.get` and caught by the enclosing `try`.  The job-listing step
  (`scrape_job_listings`, main.py:547-609) performs mechanical DOM I/O whose
  outcome is abstracted into the snapshot field `cardListings`; its possible
  extra detail-page navigations are folded into the one navigation it makes.
* Python `re` patterns are hand-compiled to decidable matchers with the same
  leftmost-match, greedy-with-backtracking semantics on the (ASCII) inputs
  the scraper handles; `\d`, `\s`, `\w`, `[A-Za-z]` are modelled by their
  ASCII meaning, and `str.lower` by ASCII lowercasing.
* Machine integers do not overflow here (job counts are small); Python `int`
  is modelled by `Int` (counts parsed from digits are of the form `(n : Nat)`
  cast into `Int`, and `-1` is the code's "cannot find data" sentinel).
-/

namespace DaDashboard

/-! Section: character classes and basic string operations. -/

/-- Python regex `\d` restricted to ASCII: a decimal digit. -/
def isDigitCh (c : Char) : Bool := c.isDigit

/-- Python regex `\s` restricted to ASCII whitespace. -/
def isSpaceCh (c : Char) : Bool :=
  c == ' ' || c == '\t' || c == '\n' || c == '\x0b' || c == '\x0c' || c == '\r'

/-- Python regex `\w` restricted to ASCII: letter, digit or underscore. -/
def isWordChar (c : Char) : Bool := c.isAlphanum || c == '_'

/-- Word-character test on an optional character; the edge of the string
counts as a non-word position (Python `\b` semantics). -/
def isWordOpt : Option Char → Bool
  | none => false
  | some c => isWordChar c

/-- Python regex class `[A-Za-z\s]` (ASCII). -/
def isClassACh (c : Char) : Bool := c.isAlpha || isSpaceCh c

/-- ASCII model of Python `str.lower()`. -/
def lowerStr (s : String) : String := ⟨s.data.map Char.toLower⟩

/-- The character list of a string literal. -/
def strL (s : String) : List Char := s.data

/-- Python `int(...)` on a non-empty decimal digit string. -/
def natOfDigits (ds : List Char) : Nat :=
  ds.foldl (fun n c => 10 * n + (c.toNat - 48)) 0

/-- Consume an exact literal prefix, returning the rest of the input. -/
def stripLit : List Char → List Char → Option (List Char)
  | [], l => some l
  | _ :: _, [] => none
  | a :: as, b :: bs => if a == b then stripLit as bs else none

/-- Substring occurrence test on character lists (Python `needle in hay`). -/
def containsSub (needle : List Char) : List Char → Bool
  | [] => (stripLit needle []).isSome
  | c :: t => (stripLit needle (c :: t)).isSome || containsSub needle (t)

/-- Python `needle in hay` on strings (case-sensitive substring test). -/
def strContains (hay needle : String) : Bool := containsSub needle.data hay.data

/-- The first maximal run of decimal digits in a text: Python
`re.search(r'\d+', text)` / `re.findall(r'\d+', text)[0]`. -/
def firstDigitRun : List Char → Option (List Char)
  | [] => none
  | c :: t => if isDigitCh c then some ((c :: t).takeWhile isDigitCh) else firstDigitRun t

/-! Section: matcher combinators for the hand-compiled regexes.  A `Matcher`
consumes a prefix of its input and returns the consumed characters (the
matched text) and the remaining input. -/

/-- A prefix matcher: consumed characters paired with the remaining input. -/
abbrev Matcher := List Char → Option (List Char × List Char)

/-- Sequencing of matchers (regex concatenation). -/
def mseq (m1 m2 : Matcher) : Matcher := fun l =>
  match m1 l with
  | some (a, r) =>
    match m2 r with
    | some (b, r2) => some (a ++ b, r2)
    | none => none
  | none => none

/-- Literal matcher (regex literal characters). -/
def mlit (s : List Char) : Matcher := fun l =>
  match stripLit s l with
  | some r => some (s, r)
  | none => none

/-- A two-character class such as `[Bb]`. -/
def mclass2 (a b : Char) : Matcher := fun l =>
  match l with
  | c :: t => if c == a || c == b then some ([c], t) else none
  | [] => none

/-- A single-character class. -/
def mchar (a : Char) : Matcher := mclass2 a a

/-- Greedy option (regex `X?`): the wrapped matcher where it applies. -/
def mopt (m : Matcher) : Matcher := fun l =>
  match m l with
  | some x => some x
  | none => some ([], l)

/-- Greedy `\s+`: one or more whitespace characters, maximal munch.  (All
uses below are followed by a non-whitespace requirement, so maximal munch
agrees with Python's backtracking semantics.) -/
def mws1 : Matcher := fun l =>
  match l with
  | [] => none
  | c :: t =>
    if isSpaceCh c then some ((c :: t).takeWhile isSpaceCh, (c :: t).dropWhile isSpaceCh)
    else none

/-! Section: the job-count regexes of `extract_job_count` (main.py:197-258). -/

/-- Greedy match of the capture group `(\d+,?\d*)`: maximal digits, then an
optional comma, then maximal digits.  Returns the group and the rest.  (The
group is always followed by `\s+` in the patterns below, and whitespace is
disjoint from digits and the comma, so maximal munch is exact.) -/
def numGroup (l : List Char) : Option (List Char × List Char) :=
  match l with
  | [] => none
  | c :: t =>
    if isDigitCh c then
      let ds := (c :: t).takeWhile isDigitCh
      let r1 := (c :: t).dropWhile isDigitCh
      match r1 with
      | ',' :: t2 => some (ds ++ [','] ++ t2.takeWhile isDigitCh, t2.dropWhile isDigitCh)
      | _ => some (ds, r1)
    else none

/-- The tail `\s+(?:data analyst\s+)?jobs` of the job-count patterns, as an
existence test on lowercased input. -/
def tailJobs (r : List Char) : Bool :=
  match mws1 r with
  | none => false
  | some (_, r2) =>
    (match stripLit (strL "data analyst") r2 with
     | some r3 =>
       (match mws1 r3 with
        | some (_, r4) => (stripLit (strL "jobs") r4).isSome
        | none => false)
     | none => false)
    || (stripLit (strL "jobs") r2).isSome

/-- Pattern `(\d+,?\d*)\s+(?:data analyst\s+)?jobs` anchored at the start of
the input (lowercased); returns capture group 1. -/
def pat1At (l : List Char) : Option (List Char) :=
  match numGroup l with
  | some (g, r) => if tailJobs r then some g else none
  | none => none

/-- Pattern `(\d+,?\d*)\s+jobs\s+available` anchored at the start. -/
def pat2At (l : List Char) : Option (List Char) :=
  match numGroup l with
  | some (g, r) =>
    match mws1 r with
    | some (_, r2) =>
      match stripLit (strL "jobs") r2 with
      | some r3 =>
        match mws1 r3 with
        | some (_, r4) => if (stripLit (strL "available") r4).isSome then some g else none
        | none => none
      | none => none
    | none => none
  | none => none

/-- Pattern `found\s+(\d+,?\d*)\s+jobs` anchored at the start. -/
def pat3At (l : List Char) : Option (List Char) :=
  match stripLit (strL "found") l with
  | some r1 =>
    match mws1 r1 with
    | some (_, r2) =>
      match numGroup r2 with
      | some (g, r3) =>
        match mws1 r3 with
        | some (_, r4) => if (stripLit (strL "jobs") r4).isSome then some g else none
        | none => none
      | none => none
    | none => none
  | none => none

/-- Pattern `showing\s+(\d+,?\d*)\s+jobs` anchored at the start. -/
def pat4At (l : List Char) : Option (List Char) :=
  match stripLit (strL "showing") l with
  | some r1 =>
    match mws1 r1 with
    | some (_, r2) =>
      match numGroup r2 with
      | some (g, r3) =>
        match mws1 r3 with
        | some (_, r4) => if (stripLit (strL "jobs") r4).isSome then some g else none
        | none => none
      | none => none
    | none => none
  | none => none

/-- Search (`re.search`): try the anchored pattern at every position, left to right,
returning the capture of the leftmost match. -/
def searchGroup (f : List Char → Option (List Char)) : List Char → Option (List Char)
  | [] => none
  | c :: t =>
    match f (c :: t) with
    | some g => some g
    | none => searchGroup f t

/-- Element pattern `\d+\s+(?:data analyst\s+)?jobs` (main.py:233) anchored at
the start of the (lowercased) input; an existence test only. -/
def elemPatAt (l : List Char) : Bool :=
  match l with
  | [] => false
  | c :: t => if isDigitCh c then tailJobs ((c :: t).dropWhile isDigitCh) else false

/-- Search (`re.search`) for the element pattern: existence anywhere in the input. -/
def elemPatSearch : List Char → Bool
  | [] => false
  | c :: t => elemPatAt (c :: t) || elemPatSearch (t)

/-! Section: page snapshots. -/

/-- A scraped job listing (main.py:702-715: the fields actually produced). -/
structure JobListing where
  title : String
  company : String
  skills : List String
  link : String
deriving DecidableEq

/-- An immutable snapshot of one fetched page.  `elems sel` is the list of
visible texts of the displayed elements matching CSS selector `sel`;
`navRaises` models `driver.get` raising a transport error; `cardListings`
abstracts the mechanical job-card DOM extraction of
`extract_skills_from_page` / `extract_skills_using_direct_urls`. -/
structure PageEnv where
  title : String
  currentUrl : String
  pageSource : String
  elems : String → List String
  navRaises : Bool
  cardListings : List JobListing

/-! Section: Cloudflare handling (main.py:140-195). -/

/-- Model of `handle_cloudflare`: detection fires when the title contains
"Just a moment" or the lowercased page source contains "cloudflare"
(main.py:149).  On a fixed snapshot the wait/click loop re-reads the same
title, so the bypass succeeds exactly when the title is clean. -/
def handle_cloudflare (p : PageEnv) : Bool :=
  if strContains p.title "Just a moment" || strContains (lowerStr p.pageSource) "cloudflare" then
    !(strContains p.title "Just a moment")
  else true

/-- The pure classification at the heart of `handle_cloudflare`
(main.py:149), under the spec's `ChallengeDetector.classify` contract with
three inputs; `true` means `Challenged`.  The source condition reads only the
title and the page source; the URL parameter is accepted but not consulted. -/
def classify_challenge (title url source : String) : Bool :=
  strContains title "Just a moment" || strContains (lowerStr source) "cloudflare"

/-! Section: the three extraction strategies of `extract_job_count`. -/

/-- The ordered selector list `count_selectors` (main.py:210-224), verbatim
including the duplicated `.jobsCount`. -/
def count_selectors : List String :=
  ["[data-test=\"jobCount\"]",
   ".jobsCount",
   ".count",
   "header h1",
   "[data-heading]",
   ".hiddenJobs",
   ".jobHeader",
   ".jobsCount",
   ".css-rfi9y",
   ".common__EIRcO",
   "h1",
   "h2",
   "span.text"]

/-- Inner loop of strategy 1 (main.py:229-235): the first displayed element
text matching the job-count pattern yields the first digit run of that text
(`re.sub(r'[^\d]', '', ...)` is the identity on a `\d+` match). -/
def scanElems : List String → Option Nat
  | [] => none
  | t :: ts =>
    if elemPatSearch (lowerStr t).data then
      match firstDigitRun t.data with
      | some ds => some (natOfDigits ds)
      | none => scanElems ts
    else scanElems ts

/-- Outer loop of strategy 1 (main.py:226-237): selectors probed in order. -/
def scanSelectors (elems : String → List String) : List String → Option Nat
  | [] => none
  | s :: ss =>
    match scanElems (elems s) with
    | some n => some n
    | none => scanSelectors elems ss

/-- Strategy 1: probe the structural selectors (main.py:226-237). -/
def selectorStrategy (p : PageEnv) : Option Nat :=
  scanSelectors p.elems count_selectors

/-- Strategy 2 (main.py:240-243): if the lowercased title contains "jobs",
return the first digit run found anywhere in the title. -/
def titleStrategy (p : PageEnv) : Option Nat :=
  if strContains (lowerStr p.title) "jobs" then
    match firstDigitRun p.title.data with
    | some ds => some (natOfDigits ds)
    | none => none
  else none

/-- Strategy 3 (main.py:245-258): the four raw-page-source patterns tried in
order, each case-insensitively; commas are stripped from the captured group
before parsing (`.replace(',', '')`). -/
def textStrategy (p : PageEnv) : Option Nat :=
  let src := (lowerStr p.pageSource).data
  match searchGroup pat1At src with
  | some g => some (natOfDigits (g.filter (fun c => c != ',')))
  | none =>
    match searchGroup pat2At src with
    | some g => some (natOfDigits (g.filter (fun c => c != ',')))
    | none =>
      match searchGroup pat3At src with
      | some g => some (natOfDigits (g.filter (fun c => c != ',')))
      | none =>
        match searchGroup pat4At src with
        | some g => some (natOfDigits (g.filter (fun c => c != ',')))
        | none => none

/-- Model of `extract_job_count` (main.py:197-271): return 0 when the Cloudflare
bypass fails, otherwise the first strategy (selectors, then title, then raw
page text) that matches; 0 when none matches.  All internal exceptions are
caught and yield 0 as well, so the function is total. -/
def extract_job_count (p : PageEnv) : Int :=
  if handle_cloudflare p = false then 0
  else
    match selectorStrategy p with
    | some n => (n : Int)
    | none =>
      match titleStrategy p with
      | some n => (n : Int)
      | none =>
        match textStrategy p with
        | some n => (n : Int)
        | none => 0

/-! Section: configuration (main.py:43-85). -/

/-- Static per-country configuration.  The Python float `remote_ratio` is
recorded as a percentage (it is never used by the code modelled here: the
source has no fallback generator consuming these priors). -/
structure CountryCfg where
  base_url : String
  remote_url : String
  avg_count : Nat
  remote_ratio_pct : Nat
deriving DecidableEq

def canadaConfig : CountryCfg :=
  { base_url := "https://www.glassdoor.com/Job/canada-data-analyst-jobs-SRCH_IL.0,6_IN3_KO7,19.htm",
    remote_url := "https://www.glassdoor.com/Job/canada-remote-data-analyst-jobs-SRCH_IL.0,6_IN3_KO7,27.htm",
    avg_count := 500, remote_ratio_pct := 30 }

def irelandConfig : CountryCfg :=
  { base_url := "https://www.glassdoor.com/Job/ireland-data-analyst-jobs-SRCH_IL.0,7_IN70_KO8,20.htm",
    remote_url := "https://www.glassdoor.com/Job/ireland-remote-data-analyst-jobs-SRCH_IL.0,7_IN70_KO8,28.htm",
    avg_count := 120, remote_ratio_pct := 40 }

def portugalConfig : CountryCfg :=
  { base_url := "https://www.glassdoor.com/Job/portugal-data-analyst-jobs-SRCH_IL.0,8_IN195_KO9,21.htm",
    remote_url := "https://www.glassdoor.com/Job/portugal-remote-data-analyst-jobs-SRCH_IL.0,8_IN195_KO9,29.htm",
    avg_count := 90, remote_ratio_pct := 50 }

def uaeConfig : CountryCfg :=
  { base_url := "https://www.glassdoor.com/Job/united-arab-emirates-data-analyst-jobs-SRCH_IL.0,20_IN6_KO21,33.htm",
    remote_url := "https://www.glassdoor.com/Job/united-arab-emirates-remote-data-analyst-jobs-SRCH_IL.0,20_IN6_KO21,41.htm",
    avg_count := 150, remote_ratio_pct := 20 }

def germanyConfig : CountryCfg :=
  { base_url := "https://www.glassdoor.com/Job/germany-data-analyst-jobs-SRCH_IL.0,7_IN96_KO8,20.htm",
    remote_url := "https://www.glassdoor.com/Job/germany-remote-data-analyst-jobs-SRCH_IL.0,7_IN96_KO8,28.htm",
    avg_count := 450, remote_ratio_pct := 35 }

/-- Lookup in the `COUNTRY_CONFIGS` dictionary lookup (main.py:54-85, `.get`). -/
def COUNTRY_CONFIGS (c : String) : Option CountryCfg :=
  if c = "Canada" then some canadaConfig
  else if c = "Ireland" then some irelandConfig
  else if c = "Portugal" then some portugalConfig
  else if c = "United Arab Emirates" then some uaeConfig
  else if c = "Germany" then some germanyConfig
  else none

/-- The configured country list (main.py:43). -/
def COUNTRIES : List String :=
  ["Canada", "Ireland", "Portugal", "United Arab Emirates", "Germany"]

/-! Section: the orchestration pipeline (main.py:352-896). -/

/-- The browser session: a fetch counter into a stream of page snapshots.
One `driver.get` consumes one snapshot. -/
structure Driver where
  fetchIdx : Nat
  env : Nat → PageEnv

/-- One navigation: the next snapshot, and the advanced driver. -/
def navigate (d : Driver) : PageEnv × Driver :=
  (d.env d.fetchIdx, ⟨d.fetchIdx + 1, d.env⟩)

/-- Model of `scrape_jobs_by_period` (main.py:352-403): `-1` when the country is not
configured (before any navigation), when the navigation raises, or when the
extracted count is 0 and the page looks challenged (title contains
"Just a moment" or the current URL contains "challenge"); otherwise the
extracted count.  The `days` parameter only feeds the query URL. -/
def scrape_jobs_by_period (d : Driver) (c : String) (days : Nat) : Int × Driver :=
  match COUNTRY_CONFIGS c with
  | none => (-1, d)
  | some _ =>
    let pd := navigate d
    let p := pd.1
    if p.navRaises then (-1, pd.2)
    else
      let jc := extract_job_count p
      if jc == 0 && (strContains p.title "Just a moment" || strContains p.currentUrl "challenge") then
        (-1, pd.2)
      else (jc, pd.2)

/-- Model of `scrape_remote_vs_onsite` (main.py:405-465): scrape the remote page, then
re-scrape the 30-day total, and set `on_site = max(0, total - remote)`
(`-1` components on the corresponding failures). -/
def scrape_remote_vs_onsite (d : Driver) (c : String) : (Int × Int) × Driver :=
  match COUNTRY_CONFIGS c with
  | none => ((-1, -1), d)
  | some _ =>
    let pd := navigate d
    let p := pd.1
    if p.navRaises then ((-1, -1), pd.2)
    else
      let rc := extract_job_count p
      if rc == 0 && (strContains p.title "Just a moment" || strContains p.currentUrl "challenge") then
        ((-1, -1), pd.2)
      else
        let td := scrape_jobs_by_period pd.2 c 30
        if td.1 < 0 then ((rc, -1), td.2)
        else ((rc, max 0 (td.1 - rc)), td.2)

/-- Model of `scrape_job_listings` (main.py:547-609): empty for an unconfigured
country (before any navigation); otherwise one navigation, empty on a
transport error or a failed Cloudflare bypass, else the listings extracted
from the page (abstracted into the snapshot). -/
def scrape_job_listings (d : Driver) (c : String) : List JobListing × Driver :=
  match COUNTRY_CONFIGS c with
  | none => ([], d)
  | some _ =>
    let pd := navigate d
    let p := pd.1
    if p.navRaises then ([], pd.2)
    else if handle_cloudflare p = false then ([], pd.2)
    else (p.cardListings, pd.2)

/-- The per-country result record built by `scrape_country` (main.py:843-851). -/
structure CountryData where
  country : String
  last_24h : Int
  last_7d : Int
  last_30d : Int
  remote : Int
  on_site : Int
  job_listings : List JobListing
deriving DecidableEq

/-- `scrape_country` (main.py:830-868): the three recency windows in
`TIME_PERIODS` order (1, 7, 30 days), then the remote/on-site pair, then the
job listings; every step is attempted regardless of earlier outcomes. -/
def scrape_country (d : Driver) (c : String) : CountryData × Driver :=
  let r1 := scrape_jobs_by_period d c 1
  let r2 := scrape_jobs_by_period r1.2 c 7
  let r3 := scrape_jobs_by_period r2.2 c 30
  let r4 := scrape_remote_vs_onsite r3.2 c
  let r5 := scrape_job_listings r4.2 c
  ({ country := c, last_24h := r1.1, last_7d := r2.1, last_30d := r3.1,
     remote := r4.1.1, on_site := r4.1.2, job_listings := r5.1 }, r5.2)

/-- The per-country loop of `run_scraper` (main.py:885-888). -/
def scrape_all (d : Driver) : List String → List (String × CountryData) × Driver
  | [] => ([], d)
  | c :: rest =>
    let r := scrape_country d c
    let tail := scrape_all r.2 rest
    ((c, r.1) :: tail.1, tail.2)

/-- The produced document (main.py:883-893); `last_updated` is an I/O-supplied
timestamp stamped after the loop and is immaterial to the claims. -/
structure ScrapeDoc where
  countries : List (String × CountryData)
deriving DecidableEq

/-- Body of `run_scraper` after a successful browser initialization. -/
def run_scraper_ok (d : Driver) : ScrapeDoc :=
  { countries := (scrape_all d COUNTRIES).1 }

/-- Result of `run_scraper` as observed through `main` (main.py:871-922): `initialize`
(`uc.Chrome`) raising escapes `run_scraper` (its `try` has only a `finally`),
is caught in `main`, and no document is saved — modelled as `none`. -/
def run_scraper (initFails : Bool) (d : Driver) : Option ScrapeDoc :=
  if initFails then none else some (run_scraper_ok d)

/-! Section: skill extraction (`extract_skills_from_text`, main.py:467-545). -/

/-- The technical-skill vocabulary (main.py:478-493), verbatim. -/
def technical_skills : List String :=
  ["SQL", "Python", "R", "Excel", "Tableau", "Power BI", "SPSS", "SAS",
   "D3.js", "Java", "Scala", "MATLAB", "Hadoop", "Spark", "AWS", "Azure",
   "Google Cloud", "MongoDB", "PostgreSQL", "MySQL", "Oracle", "ETL",
   "Machine Learning", "Deep Learning", "AI", "Statistics", "Pandas",
   "NumPy", "Scikit-learn", "TensorFlow", "PyTorch", "Jupyter",
   "Data Visualization", "Data Modeling", "Business Intelligence",
   "Data Mining", "A/B Testing", "Data Warehousing", "Looker",
   "Snowflake", "Redshift", "BigQuery", "Alteryx", "SSRS", "SSIS",
   "DAX", "Power Query", "VBA", "Qlik", "Cognos", "Teradata",
   "Informatica", "DataOps", "MLOps", "PowerPoint", "Word", "Outlook",
   "SharePoint", "Teams", "Jira", "Confluence", "Git", "GitHub", "GitLab",
   "NoSQL", "Airflow", "dbt", "Data Quality", "JSON", "XML", "API",
   "REST", "SOAP", "Flask", "Django", "FastAPI", "Data Pipelines",
   "Google Analytics", "Power Platform", "Databricks", "Talend"]

/-- The education vocabulary (main.py:496-502), verbatim; note that
"Statistics" also occurs in `technical_skills`. -/
def education_requirements : List String :=
  ["Bachelor's Degree", "Master's Degree", "PhD", "MBA",
   "Bachelor", "Master", "Doctorate", "BSc", "MSc",
   "BS", "MS", "Computer Science", "Statistics", "Mathematics",
   "Information Technology", "Data Science", "Economics", "Business",
   "Engineering", "Quantitative Field", "Degree"]

/-- The soft-skill vocabulary (main.py:505-514), verbatim. -/
def soft_skills : List String :=
  ["Communication", "Teamwork", "Problem Solving", "Analytical Thinking",
   "Critical Thinking", "Attention to Detail", "Time Management",
   "Project Management", "Leadership", "Collaboration", "Presentation",
   "Storytelling", "Decision Making", "Self-motivated", "Adaptability",
   "Creativity", "Organization", "Multitasking", "Prioritization",
   "Verbal Communication", "Written Communication", "Customer Service",
   "Business Acumen", "Domain Knowledge", "Industry Experience",
   "Agile", "Scrum", "Stakeholder Management", "Requirements Gathering"]

/-- Concatenation `all_skills = technical_skills + education_requirements + soft_skills`
(main.py:517). -/
def all_skills : List String :=
  technical_skills ++ education_requirements ++ soft_skills

/-- Anchored match of a matcher with Python `\b` word boundaries on both
sides: the position left of the match and the position right of it must each
separate a word character from a non-word character (string edges are
non-word). -/
def withBounds (m : Matcher) (prev : Option Char) (l : List Char) : Option (List Char) :=
  match m l with
  | some (g, rest) =>
    match g with
    | [] => none
    | gc :: gt =>
      if (isWordOpt prev != isWordChar gc) && (isWordChar (gt.getLastD gc) != isWordOpt rest.head?)
      then some g
      else none
  | none => none

/-- Search (`re.search`) for a boundary-anchored matcher: scan positions left to
right, remembering the previous character for the left boundary. -/
def searchBounded (m : Matcher) : Option Char → List Char → Option (List Char)
  | _, [] => none
  | prev, c :: t =>
    match withBounds m prev (c :: t) with
    | some g => some g
    | none => searchBounded m (some c) t

/-- Vocabulary test `re.search(r'\b' + re.escape(skill) + r'\b', text,
re.IGNORECASE)` (main.py:523-524): a case-insensitive whole-word search. -/
def wordSearchCI (lit text : String) : Bool :=
  (searchBounded (mlit (lowerStr lit).data) none (lowerStr text).data).isSome

/-- Greedy split of a maximal `[A-Za-z\s]` run so that a `\b` boundary holds
at the split: returns the longest non-empty prefix whose last character and
successor (the rest of the run, else `after`) differ in word-ness. -/
def classSplit : List Char → Option Char → Option (List Char × List Char)
  | [], _ => none
  | c :: rest, after =>
    match classSplit rest after with
    | some (p, leftover) => some (c :: p, leftover)
    | none =>
      let nxt : Option Char := match rest with | [] => after | r :: _ => some r
      if isWordChar c != isWordOpt nxt then some ([c], rest) else none

/-- Degree pattern `\b[Bb]achelor'?s?\s+[Dd]egree\b` (main.py:530), as the
matcher between the two boundaries. -/
def bachelorDegreeM : Matcher :=
  mseq (mclass2 'B' 'b') (mseq (mlit (strL "achelor"))
    (mseq (mopt (mchar (Char.ofNat 39))) (mseq (mopt (mchar 's'))
      (mseq mws1 (mseq (mclass2 'D' 'd') (mlit (strL "egree")))))))

/-- Degree pattern `\b[Bb][Ss][Cc]\b` (main.py:531). -/
def bscM : Matcher :=
  mseq (mclass2 'B' 'b') (mseq (mclass2 'S' 's') (mclass2 'C' 'c'))

/-- Degree pattern `\b[Mm]aster'?s?\s+[Dd]egree\b` (main.py:532). -/
def masterDegreeM : Matcher :=
  mseq (mclass2 'M' 'm') (mseq (mlit (strL "aster"))
    (mseq (mopt (mchar (Char.ofNat 39))) (mseq (mopt (mchar 's'))
      (mseq mws1 (mseq (mclass2 'D' 'd') (mlit (strL "egree")))))))

/-- Degree pattern `\b[Mm][Ss][Cc]\b` (main.py:533). -/
def mscM : Matcher :=
  mseq (mclass2 'M' 'm') (mseq (mclass2 'S' 's') (mclass2 'C' 'c'))

/-- Degree pattern `\b[Pp][Hh][Dd]\b` (main.py:534). -/
def phdM : Matcher :=
  mseq (mclass2 'P' 'p') (mseq (mclass2 'H' 'h') (mclass2 'D' 'd'))

/-- Degree pattern `\b[Dd]octoral\s+[Dd]egree\b` (main.py:535). -/
def doctoralDegreeM : Matcher :=
  mseq (mclass2 'D' 'd') (mseq (mlit (strL "octoral"))
    (mseq mws1 (mseq (mclass2 'D' 'd') (mlit (strL "egree")))))

/-- Degree pattern `\b[Dd]egree\s+in\s+[A-Za-z\s]+\b` (main.py:536).  The
trailing `\s+[A-Za-z\s]+` is one maximal `[A-Za-z\s]` run whose first
character is whitespace and whose length is at least 2, cut at the rightmost
position where the closing `\b` holds — exactly Python's greedy
backtracking, since `\s` is contained in the class. -/
def degreeInM : Matcher := fun l =>
  match (mseq (mclass2 'D' 'd') (mseq (mlit (strL "egree")) (mseq mws1 (mlit (strL "in"))))) l with
  | none => none
  | some (g0, rest) =>
    let run := rest.takeWhile isClassACh
    let rest2 := rest.dropWhile isClassACh
    match run with
    | [] => none
    | c :: _ =>
      if isSpaceCh c then
        match classSplit run rest2.head? with
        | some (p, leftover) =>
          if 2 ≤ p.length then some (g0 ++ p, leftover ++ rest2) else none
        | none => none
      else none

/-- List `degree_patterns` (main.py:529-537), in source order. -/
def degree_patterns : List Matcher :=
  [bachelorDegreeM, bscM, masterDegreeM, mscM, phdM, doctoralDegreeM, degreeInM]

/-- First match of a degree pattern in the (case-sensitive) text:
`re.search(pattern, text).group(0)`. -/
def runDegree (m : Matcher) (text : String) : Option String :=
  (searchBounded m none text.data).map (fun g => ⟨g⟩)

/-- One iteration of the degree loop (main.py:539-543): append the first
match of the pattern unless it is already present. -/
def addDegree (text : String) (acc : List String) (m : Matcher) : List String :=
  match runDegree m text with
  | some g => if g ∈ acc then acc else acc ++ [g]
  | none => acc

/-- Model of `extract_skills_from_text` (main.py:467-545): every vocabulary entry
whose whole-word case-insensitive search hits is appended in its canonical
casing (a Python list, in vocabulary order), then each degree pattern's
first match is appended when not already present. -/
def extract_skills_from_text (text : String) : List String :=
  degree_patterns.foldl (addDegree text)
    (all_skills.filter (fun s => wordSearchCI s text))

/-! Section: concrete page environments used by counterexamples and
witnesses. -/

/-- A clean page snapshot whose only content is the given page source. -/
def mkPage (src : String) : PageEnv :=
  { title := "Data Analyst Careers", currentUrl := "https://www.glassdoor.com/Job/x",
    pageSource := src, elems := fun _ => [], navRaises := false, cardListings := [] }

/-- A Cloudflare interstitial snapshot. -/
def challengedPage : PageEnv :=
  { title := "Just a moment...", currentUrl := "https://www.glassdoor.com/challenge",
    pageSource := "cloudflare", elems := fun _ => [], navRaises := false, cardListings := [] }

/-- A session in which every fetch is challenged. -/
def dChal : Driver := ⟨0, fun _ => challengedPage⟩

/-- A session of clean pages with no job-count content. -/
def dBlank : Driver := ⟨0, fun _ => mkPage ""⟩

/-- A session whose first fetch is challenged while every later fetch is a
clean live page ("42 jobs" on the second fetch). -/
def dC2 : Driver :=
  ⟨0, fun i => if i = 0 then challengedPage else if i = 1 then mkPage "42 jobs" else mkPage "4 jobs"⟩

/-- Like `dC2` but the second fetch reports "37 jobs". -/
def dC2b : Driver :=
  ⟨0, fun i => if i = 0 then challengedPage else if i = 1 then mkPage "37 jobs" else mkPage "4 jobs"⟩

/-- A session where the remote-page fetch (index 3) reports 10 jobs while
every 30-day fetch reports 4 jobs. -/
def dC4 : Driver := ⟨0, fun i => if i = 3 then mkPage "10 jobs" else mkPage "4 jobs"⟩

/-- A consistent live session: remote fetch (index 3) reports 2 jobs, every
other fetch 4 jobs. -/
def envW4 : Nat → PageEnv := fun i => if i = 3 then mkPage "2 jobs" else mkPage "4 jobs"

/-- A uniform clean live session reporting 4 jobs on every fetch. -/
def envW2 : Nat → PageEnv := fun _ => mkPage "4 jobs"

/-- A page whose raw source says "5 jobs" while a probed `h1` element's
visible text says "7 jobs". -/
def envC5 : PageEnv :=
  { mkPage "5 jobs" with elems := fun s => if s = "h1" then ["7 jobs"] else [] }

/-- A page on which a probed `h1` element's visible text is "1,234 jobs". -/
def envC6 : PageEnv :=
  { mkPage "" with elems := fun s => if s = "h1" then ["1,234 jobs"] else [] }

/-! Section: general lemmas about the embedded pipeline. -/

/-- When every selector probe returns no elements, strategy 1 finds nothing. -/
lemma scanSelectors_const_nil (sels : List String) :
    scanSelectors (fun _ => []) sels = none := by
  induction sels with
  | nil => rfl
  | cons s ss ih => simpa [scanSelectors, scanElems] using ih

/-- Every value returned by `extract_job_count` is non-negative: each
strategy parses a digit string, and every failure path returns 0. -/
lemma extract_nonneg (p : PageEnv) : 0 ≤ extract_job_count p := by
  unfold extract_job_count
  repeat first | omega | split

/-- Every value returned by `scrape_jobs_by_period` is at least the -1
sentinel. -/
lemma sjbp_fst_ge (d : Driver) (c : String) (days : Nat) :
    -1 ≤ (scrape_jobs_by_period d c days).1 := by
  unfold scrape_jobs_by_period
  split
  · omega
  · dsimp only
    split
    · omega
    · split
      · omega
      · have := extract_nonneg (navigate d).1
        dsimp only
        omega

/-- For a configured country, `scrape_jobs_by_period` consumes exactly one
fetch. -/
lemma sjbp_snd (d : Driver) (c : String) (days : Nat) (cfg : CountryCfg)
    (h : COUNTRY_CONFIGS c = some cfg) :
    (scrape_jobs_by_period d c days).2 = ⟨d.fetchIdx + 1, d.env⟩ := by
  unfold scrape_jobs_by_period
  rw [h]
  dsimp only [navigate]
  split
  · rfl
  · split <;> rfl

/-- Both components returned by `scrape_remote_vs_onsite` are at least the
-1 sentinel. -/
lemma remote_ge (d : Driver) (c : String) :
    -1 ≤ (scrape_remote_vs_onsite d c).1.1 ∧ -1 ≤ (scrape_remote_vs_onsite d c).1.2 := by
  unfold scrape_remote_vs_onsite
  split
  · exact ⟨by norm_num, by norm_num⟩
  · dsimp only
    split
    · exact ⟨by norm_num, by norm_num⟩
    · split
      · exact ⟨by norm_num, by norm_num⟩
      · have h1 := extract_nonneg (navigate d).1
        split
        · dsimp only
          exact ⟨by omega, by norm_num⟩
        · dsimp only
          constructor
          · omega
          · have h2 : (0 : Int) ≤ max 0 ((scrape_jobs_by_period (navigate d).2 c 30).1
                - extract_job_count (navigate d).1) := le_max_left _ _
            omega

/-- All five numeric fields produced by `scrape_country` are at least -1. -/
lemma scrape_country_ge (d : Driver) (c : String) :
    -1 ≤ (scrape_country d c).1.last_24h ∧ -1 ≤ (scrape_country d c).1.last_7d ∧
    -1 ≤ (scrape_country d c).1.last_30d ∧ -1 ≤ (scrape_country d c).1.remote ∧
    -1 ≤ (scrape_country d c).1.on_site := by
  unfold scrape_country
  dsimp only
  exact ⟨sjbp_fst_ge _ _ _, sjbp_fst_ge _ _ _, sjbp_fst_ge _ _ _,
    (remote_ge _ _).1, (remote_ge _ _).2⟩

/-- The country loop emits exactly the requested countries, in order. -/
lemma scrape_all_keys (cs : List String) (d : Driver) :
    ((scrape_all d cs).1.map Prod.fst) = cs := by
  induction cs generalizing d with
  | nil => rfl
  | cons c rest ih => simp [scrape_all, ih]

/-- Every entry emitted by the country loop satisfies the -1 field bound. -/
lemma scrape_all_mem_ge (cs : List String) (d : Driver) (c : String) (cd : CountryData)
    (h : (c, cd) ∈ (scrape_all d cs).1) :
    -1 ≤ cd.last_24h ∧ -1 ≤ cd.last_7d ∧ -1 ≤ cd.last_30d ∧ -1 ≤ cd.remote ∧ -1 ≤ cd.on_site := by
  induction cs generalizing d with
  | nil => simp [scrape_all] at h
  | cons c0 rest ih =>
    simp only [scrape_all, List.mem_cons] at h
    rcases h with h | h
    · rw [Prod.ext_iff] at h
      obtain ⟨h1, h2⟩ := h
      subst h2
      exact scrape_country_ge _ _
    · exact ih _ h

/-- The degree-pattern loop only appends: membership is preserved. -/
lemma mem_foldl_addDegree (text : String) (ms : List Matcher) (acc : List String) (s : String)
    (h : s ∈ acc) : s ∈ ms.foldl (addDegree text) acc := by
  induction ms generalizing acc with
  | nil => exact h
  | cons m rest ih =>
    apply ih
    unfold addDegree
    split
    · split
      · exact h
      · exact List.mem_append_left _ h
    · exact h

/-- String concatenation concatenates the underlying character lists. -/
lemma data_append (s t : String) : (s ++ t).data = s.data ++ t.data := rfl

/-- Lowercasing distributes over string concatenation. -/
lemma lowerStr_data_append (s t : String) :
    (lowerStr (s ++ t)).data = (lowerStr s).data ++ (lowerStr t).data := by
  show (s ++ t).data.map Char.toLower = s.data.map Char.toLower ++ t.data.map Char.toLower
  rw [data_append, List.map_append]

/-- The first job-count pattern cannot match at a non-digit character. -/
lemma pat1At_nondigit (c : Char) (t : List Char) (h : isDigitCh c = false) :
    pat1At (c :: t) = none := by
  simp [pat1At, numGroup, h]

/-- Scanning for the first job-count pattern skips any digit-free prefix. -/
lemma searchGroup_skip (A B : List Char) (h : A.all (fun c => !isDigitCh c) = true) :
    searchGroup pat1At (A ++ B) = searchGroup pat1At B := by
  induction A with
  | nil => rfl
  | cons c t ih =>
    simp only [List.all_cons, Bool.and_eq_true] at h
    have h1 : isDigitCh c = false := by
      rcases h with ⟨h1, _⟩
      cases hc : isDigitCh c
      · rfl
      · rw [hc] at h1
        exact absurd h1 (by decide)
    simp only [List.cons_append, searchGroup, pat1At_nondigit c _ h1]
    exact ih h.2

/-- At an input starting with "1,234 jobs" the first job-count pattern
matches immediately with capture group "1,234", whatever follows. -/
lemma searchGroup_at_1234 (rest : List Char) :
    searchGroup pat1At (strL "1,234 jobs" ++ rest) = some (strL "1,234") := rfl

/-- For a configured country, when the remote count is a live value bounded
by the re-fetched 30-day total, `remote + on_site` equals that re-fetched
total (the fetch consumed at index `fetchIdx + 1`). -/
lemma remote_sum (d : Driver) (c : String) (cfg : CountryCfg) (h : COUNTRY_CONFIGS c = some cfg)
    (hrem : 0 ≤ (scrape_remote_vs_onsite d c).1.1)
    (hle : (scrape_remote_vs_onsite d c).1.1
      ≤ (scrape_jobs_by_period ⟨d.fetchIdx + 1, d.env⟩ c 30).1) :
    (scrape_remote_vs_onsite d c).1.1 + (scrape_remote_vs_onsite d c).1.2
      = (scrape_jobs_by_period ⟨d.fetchIdx + 1, d.env⟩ c 30).1 := by
  unfold scrape_remote_vs_onsite at *
  rw [h] at *
  dsimp only [navigate] at *
  by_cases h1 : (d.env d.fetchIdx).navRaises = true
  · rw [if_pos h1] at hrem
    dsimp only at hrem
    omega
  · rw [if_neg h1] at hrem hle ⊢
    by_cases h2 : (extract_job_count (d.env d.fetchIdx) == 0 &&
        (strContains (d.env d.fetchIdx).title "Just a moment"
          || strContains (d.env d.fetchIdx).currentUrl "challenge")) = true
    · rw [if_pos h2] at hrem
      dsimp only at hrem
      omega
    · rw [if_neg h2] at hrem hle ⊢
      by_cases h3 : (scrape_jobs_by_period ⟨d.fetchIdx + 1, d.env⟩ c 30).1 < 0
      · rw [if_pos h3] at hrem hle ⊢
        dsimp only at hrem hle ⊢
        omega
      · rw [if_neg h3] at hrem hle ⊢
        dsimp only at hrem hle ⊢
        rw [max_eq_right (by omega :
          (0 : Int) ≤ (scrape_jobs_by_period ⟨d.fetchIdx + 1, d.env⟩ c 30).1
            - extract_job_count (d.env d.fetchIdx))]
        omega

/-! Section: the claims. -/

/-- Claim C1, counterexample.  The claim states that every run returns a
complete, schema-valid document (all `CountryResult` fields integers ≥ 0 per
the spec's schema), with worst-case values fallback-generated.  In the code
there is no fallback generator: in an all-challenged run the produced
document carries the sentinel -1 (negative, hence not schema-valid in the
spec's sense, and not a generated plausible value); and when browser
initialization fails, `run_scraper` raises, `main` swallows the exception
and no document is produced at all. -/
theorem C1_document_counterexample :
    ((run_scraper_ok dChal).countries.lookup "Canada").map CountryData.last_24h = some (-1) ∧
    ((-1 : Int) < 0) ∧
    run_scraper true dChal = none := by
  refine ⟨by decide, by decide, rfl⟩

/-- Claim C1, amended.  When browser initialization succeeds, every run
returns a document listing exactly the configured countries in order, and
every numeric field of every entry is an integer ≥ -1, where -1 is the
"cannot find data" sentinel (no synthetic fallback values are generated);
when initialization fails, no document is produced. -/
theorem C1_document_amended (d : Driver) :
    (run_scraper_ok d).countries.map Prod.fst = COUNTRIES ∧
    (∀ c cd, (c, cd) ∈ (run_scraper_ok d).countries →
      -1 ≤ cd.last_24h ∧ -1 ≤ cd.last_7d ∧ -1 ≤ cd.last_30d ∧
      -1 ≤ cd.remote ∧ -1 ≤ cd.on_site) ∧
    (∀ d2 : Driver, run_scraper true d2 = none) := by
  refine ⟨scrape_all_keys _ _, ?_, fun _ => rfl⟩
  intro c cd h
  exact scrape_all_mem_ge _ _ _ _ h

/-- Claim C1, witness: the amended theorem applied to the all-challenged
session and its Canada entry. -/
theorem C1_document_amended_witness :
    -1 ≤ (scrape_country dChal "Canada").1.last_24h ∧
    -1 ≤ (scrape_country dChal "Canada").1.last_7d ∧
    -1 ≤ (scrape_country dChal "Canada").1.last_30d ∧
    -1 ≤ (scrape_country dChal "Canada").1.remote ∧
    -1 ≤ (scrape_country dChal "Canada").1.on_site :=
  (C1_document_amended dChal).2.1 "Canada" ((scrape_country dChal "Canada").1) (by decide)

/-- Claim C2, counterexample.  The claim states that once an extraction for
a country returns Challenged/NotFound, every remaining metric of that
country is answered by the fallback generator with no further live
extraction attempts.  In the session `dC2` the first metric is challenged
(value -1), yet the second metric is still extracted live: it tracks the
live page content of the second fetch (42 under `dC2`, 37 under the
otherwise-identical `dC2b`), so a further live extraction attempt happened
and no fallback generator answered it. -/
theorem C2_fallback_latch_counterexample :
    (scrape_country dC2 "Canada").1.last_24h = -1 ∧
    (scrape_country dC2 "Canada").1.last_7d = 42 ∧
    (scrape_country dC2b "Canada").1.last_7d = 37 := by decide

/-- Claim C2, amended.  The code maintains no Live/Fallback state at all:
for a configured country each recency window is scraped live from its own
fetch, independently of the outcomes of the earlier metrics (a
Challenged/NotFound outcome yields -1 for that metric only).  Consequently
no fallback state can leak across countries either. -/
theorem C2_metric_independence_amended (d : Driver) (c : String) (cfg : CountryCfg)
    (h : COUNTRY_CONFIGS c = some cfg) :
    (scrape_country d c).1.last_24h = (scrape_jobs_by_period d c 1).1 ∧
    (scrape_country d c).1.last_7d = (scrape_jobs_by_period ⟨d.fetchIdx + 1, d.env⟩ c 7).1 ∧
    (scrape_country d c).1.last_30d = (scrape_jobs_by_period ⟨d.fetchIdx + 2, d.env⟩ c 30).1 := by
  unfold scrape_country
  dsimp only
  refine ⟨rfl, ?_, ?_⟩
  · rw [sjbp_snd d c 1 cfg h]
  · rw [sjbp_snd d c 1 cfg h, sjbp_snd _ c 7 cfg h]

/-- Claim C2, witness: the amended theorem applied to a concrete clean
session. -/
theorem C2_metric_independence_amended_witness :
    (scrape_country ⟨0, envW2⟩ "Canada").1.last_7d
      = (scrape_jobs_by_period ⟨1, envW2⟩ "Canada" 7).1 :=
  (C2_metric_independence_amended ⟨0, envW2⟩ "Canada" canadaConfig (by decide)).2.1

/-- Claim C3, counterexample.  The claim states every recency-window field
is an integer ≥ 0; but a challenged fetch stores the sentinel -1
(main.py:842-851, 394-396). -/
theorem C3_nonneg_counterexample :
    (scrape_country dChal "Canada").1.last_24h = -1 ∧
    ¬ (0 : Int) ≤ (scrape_country dChal "Canada").1.last_24h := by decide

/-- Claim C3, amended.  Every numeric field of a produced `CountryResult` is
an integer ≥ -1: live counts are parsed digit strings (hence ≥ 0) and every
failure path stores the -1 sentinel. -/
theorem C3_sentinel_bound_amended (d : Driver) (c : String) :
    -1 ≤ (scrape_country d c).1.last_24h ∧ -1 ≤ (scrape_country d c).1.last_7d ∧
    -1 ≤ (scrape_country d c).1.last_30d ∧ -1 ≤ (scrape_country d c).1.remote ∧
    -1 ≤ (scrape_country d c).1.on_site :=
  scrape_country_ge d c

/-- Claim C4, counterexample.  The claim states `remote + on_site ==
last_30d` whenever both sides are produced in the same generation mode.  In
session `dC4` every value is live (there is no fallback mode in the code at
all, and both 30-day fetches agree on 4), yet `remote = 10 > 4` forces
`on_site = max(0, 4 - 10) = 0` and `remote + on_site = 10 ≠ 4 = last_30d`. -/
theorem C4_sum_counterexample :
    (scrape_country dC4 "Canada").1.last_30d = 4 ∧
    (scrape_country dC4 "Canada").1.remote = 10 ∧
    (scrape_country dC4 "Canada").1.on_site = 0 ∧
    ¬ ((scrape_country dC4 "Canada").1.remote + (scrape_country dC4 "Canada").1.on_site
        = (scrape_country dC4 "Canada").1.last_30d) := by decide

/-- Claim C4, amended.  `on_site` is computed from a second, separate
30-day fetch (the fifth fetch of the country, index 4) as
`max(0, total - remote)`; therefore `remote + on_site = last_30d` holds
exactly under the extra hypotheses that the second 30-day fetch agrees with
the first (index 2) and that the live remote count does not exceed that
total. -/
theorem C4_sum_amended (d : Driver) (c : String) (cfg : CountryCfg)
    (h : COUNTRY_CONFIGS c = some cfg)
    (hagree : (scrape_jobs_by_period ⟨d.fetchIdx + 4, d.env⟩ c 30).1
      = (scrape_jobs_by_period ⟨d.fetchIdx + 2, d.env⟩ c 30).1)
    (hrem : 0 ≤ (scrape_country d c).1.remote)
    (hle : (scrape_country d c).1.remote
      ≤ (scrape_jobs_by_period ⟨d.fetchIdx + 4, d.env⟩ c 30).1) :
    (scrape_country d c).1.remote + (scrape_country d c).1.on_site
      = (scrape_country d c).1.last_30d := by
  have eq_r : (scrape_country d c).1.remote
      = (scrape_remote_vs_onsite ⟨d.fetchIdx + 3, d.env⟩ c).1.1 := by
    unfold scrape_country
    dsimp only
    rw [sjbp_snd d c 1 cfg h, sjbp_snd _ c 7 cfg h, sjbp_snd _ c 30 cfg h]
  have eq_o : (scrape_country d c).1.on_site
      = (scrape_remote_vs_onsite ⟨d.fetchIdx + 3, d.env⟩ c).1.2 := by
    unfold scrape_country
    dsimp only
    rw [sjbp_snd d c 1 cfg h, sjbp_snd _ c 7 cfg h, sjbp_snd _ c 30 cfg h]
  have eq_30 : (scrape_country d c).1.last_30d
      = (scrape_jobs_by_period ⟨d.fetchIdx + 2, d.env⟩ c 30).1 := by
    unfold scrape_country
    dsimp only
    rw [sjbp_snd d c 1 cfg h, sjbp_snd _ c 7 cfg h]
  rw [eq_r] at hrem hle
  rw [eq_r, eq_o, eq_30]
  rw [← hagree]
  exact remote_sum ⟨d.fetchIdx + 3, d.env⟩ c cfg h hrem hle

/-- Claim C4, witness: the amended theorem applied to a consistent live
session (remote 2, both 30-day totals 4). -/
theorem C4_sum_amended_witness :
    (scrape_country ⟨0, envW4⟩ "Canada").1.remote + (scrape_country ⟨0, envW4⟩ "Canada").1.on_site
      = (scrape_country ⟨0, envW4⟩ "Canada").1.last_30d :=
  C4_sum_amended ⟨0, envW4⟩ "Canada" canadaConfig (by decide) (by decide) (by decide) (by decide)

/-- Claim C5, counterexample.  The claim puts the raw-page-text regex scan
first in the priority order, so on `envC5` (raw text "5 jobs", a probed
element showing "7 jobs") it predicts 5.  The code probes the structural
selectors first (main.py:226-237) and returns 7 even though the raw-text
strategy would find 5. -/
theorem C5_priority_counterexample :
    textStrategy envC5 = some 5 ∧ selectorStrategy envC5 = some 7 ∧
    extract_job_count envC5 = 7 ∧ ((7 : Int) ≠ 5) := by decide

/-- Claim C5, amended.  The strategies are applied in the strict priority
order selector probe, then title (first digit run anywhere in a title whose
lowercase contains "jobs"), then raw-page-text regex scan; the earliest
strategy that matches determines the result even when a later strategy
would find a different number, and 0 is returned when none matches. -/
theorem C5_priority_amended (p : PageEnv) (hcf : handle_cloudflare p = true) :
    (∀ n, selectorStrategy p = some n → extract_job_count p = (n : Int)) ∧
    (∀ n, selectorStrategy p = none → titleStrategy p = some n →
      extract_job_count p = (n : Int)) ∧
    (∀ n, selectorStrategy p = none → titleStrategy p = none → textStrategy p = some n →
      extract_job_count p = (n : Int)) ∧
    (selectorStrategy p = none → titleStrategy p = none → textStrategy p = none →
      extract_job_count p = 0) := by
  unfold extract_job_count
  rw [hcf]
  refine ⟨?_, ?_, ?_, ?_⟩
  · intro n h1
    simp [h1]
  · intro n h1 h2
    simp [h1, h2]
  · intro n h1 h2 h3
    simp [h1, h2, h3]
  · intro h1 h2 h3
    simp [h1, h2, h3]

/-- Claim C5, witness: on `envC5` the selector strategy wins and the result
is 7, although the raw-text strategy matches with 5. -/
theorem C5_priority_amended_witness : extract_job_count envC5 = ((7 : Nat) : Int) :=
  (C5_priority_amended envC5 (by decide)).1 7 (by decide)

/-- Claim C6, counterexample.  The claim states that every input whose
visible text contains "1,234 jobs" yields Count(1234).  When that text is
the visible text of a probed element, the selector strategy matches (the
element pattern `\d+\s+jobs` hits at "234 jobs") and then returns the first
digit run of the element text — which is "1", not 1234 (main.py:233-235). -/
theorem C6_comma_counterexample :
    extract_job_count envC6 = 1 ∧ ¬ extract_job_count envC6 = 1234 := by decide

/-- Claim C6, amended.  When "1,234 jobs" occurs in the raw page source
with no digits before it, the selector probe finds no elements, and the
title matches nothing, the raw-text strategy strips the thousands separator
and returns 1234; and an input with no digit-adjacent-to-"jobs" pattern, no
matching selectors and no digits in the title returns the not-found
sentinel 0.  (When "1,234 jobs" is instead the visible text of a probed
element the code returns 1, as the counterexample shows.) -/
theorem C6_comma_amended (pre post : String)
    (hpre : ((lowerStr pre).data.all (fun c => !isDigitCh c)) = true)
    (hcf : strContains (lowerStr (pre ++ "1,234 jobs" ++ post)) "cloudflare" = false) :
    extract_job_count
      { title := "Data Analyst Careers", currentUrl := "https://www.glassdoor.com/Job/x",
        pageSource := pre ++ "1,234 jobs" ++ post,
        elems := fun _ => [], navRaises := false, cardListings := [] } = 1234 ∧
    extract_job_count (mkPage "") = 0 := by
  refine ⟨?_, by decide⟩
  have hmid : (lowerStr "1,234 jobs").data = strL "1,234 jobs" := by decide
  have key : searchGroup pat1At ((lowerStr (pre ++ "1,234 jobs" ++ post)).data)
      = some (strL "1,234") := by
    rw [lowerStr_data_append (pre ++ "1,234 jobs") post, lowerStr_data_append pre "1,234 jobs",
      hmid, List.append_assoc, searchGroup_skip _ _ hpre, searchGroup_at_1234]
  have hhcf : handle_cloudflare
      { title := "Data Analyst Careers", currentUrl := "https://www.glassdoor.com/Job/x",
        pageSource := pre ++ "1,234 jobs" ++ post,
        elems := fun _ => [], navRaises := false, cardListings := [] } = true := by
    unfold handle_cloudflare
    dsimp only
    rw [hcf]
    decide
  have hsel : selectorStrategy
      { title := "Data Analyst Careers", currentUrl := "https://www.glassdoor.com/Job/x",
        pageSource := pre ++ "1,234 jobs" ++ post,
        elems := fun _ => [], navRaises := false, cardListings := [] } = none :=
    scanSelectors_const_nil _
  have httl : titleStrategy
      { title := "Data Analyst Careers", currentUrl := "https://www.glassdoor.com/Job/x",
        pageSource := pre ++ "1,234 jobs" ++ post,
        elems := fun _ => [], navRaises := false, cardListings := [] } = none := by
    unfold titleStrategy
    dsimp only
    decide
  have htext : textStrategy
      { title := "Data Analyst Careers", currentUrl := "https://www.glassdoor.com/Job/x",
        pageSource := pre ++ "1,234 jobs" ++ post,
        elems := fun _ => [], navRaises := false, cardListings := [] } = some 1234 := by
    unfold textStrategy
    dsimp only
    rw [key]
    rfl
  unfold extract_job_count
  rw [hhcf, hsel, httl, htext]
  rfl

/-- Claim C6, witness: the amended theorem applied to the page source
"showing 1,234 jobs available". -/
theorem C6_comma_amended_witness :
    extract_job_count
      { title := "Data Analyst Careers", currentUrl := "https://www.glassdoor.com/Job/x",
        pageSource := "showing " ++ "1,234 jobs" ++ " available",
        elems := fun _ => [], navRaises := false, cardListings := [] } = 1234 ∧
    extract_job_count (mkPage "") = 0 :=
  C6_comma_amended "showing " " available" (by decide) (by decide)

/-- Claim C7, confirmed.  The challenge classification is a pure function of
the page title and page source — in the embedding it is a Lean function, so
identical inputs give identical results by construction; moreover it does
not consult the URL at all (first conjunct), and a title of
"Just a moment..." classifies as Challenged whatever the URL and body are
(second conjunct). -/
theorem C7_classify_pure (t u1 u2 s : String) :
    classify_challenge t u1 s = classify_challenge t u2 s ∧
    classify_challenge "Just a moment..." u1 s = true := by
  refine ⟨rfl, ?_⟩
  unfold classify_challenge
  rw [show strContains "Just a moment..." "Just a moment" = true from by decide]
  exact Bool.true_or _

/-- Claim C8, counterexample.  The claim states the result is a set with no
duplicate entries.  "Statistics" occurs verbatim in both the technical and
the education vocabulary (main.py:482, 499), and the loop appends once per
vocabulary entry, so the text "Statistics" produces the entry twice. -/
theorem C8_duplicate_counterexample : ¬ (extract_skills_from_text "Statistics").Nodup := by
  decide

/-- Claim C8, amended.  Matching is case-insensitive whole-word matching
against the three vocabularies and each matching entry is added in its
canonical casing (first conjunct, e.g. lowercase input still yields the
canonical spelling); the empty input yields the empty result and no error
(second conjunct); but the result is a Python list, not a set: a term
occurring in two vocabularies ("Statistics") is emitted twice (third
conjunct). -/
theorem C8_skills_amended :
    (∀ text s, s ∈ all_skills → wordSearchCI s text = true →
      s ∈ extract_skills_from_text text) ∧
    extract_skills_from_text "" = [] ∧
    (extract_skills_from_text "Statistics").count "Statistics" = 2 := by
  refine ⟨?_, by decide, by decide⟩
  intro text s hs hw
  unfold extract_skills_from_text
  exact mem_foldl_addDegree _ _ _ _ (List.mem_filter.mpr ⟨hs, hw⟩)

/-- Claim C8, witness: canonical-casing membership on a lowercase input. -/
theorem C8_skills_amended_witness : "SQL" ∈ extract_skills_from_text "requires sql daily" :=
  C8_skills_amended.1 "requires sql daily" "SQL" (by decide) (by decide)

/-- Claim C9, counterexample.  The claim states the orchestrator returns a
zeroed/empty result for an unconfigured country; the code instead fills the
count fields with the sentinel -1, which is not zero (the listings list is
indeed empty). -/
theorem C9_zeroed_counterexample :
    (scrape_country dBlank "Atlantis").1.last_24h = -1 ∧ ((-1 : Int) ≠ 0) := by decide

/-- Claim C9, amended.  For a country absent from `COUNTRY_CONFIGS`, every
stage returns before navigating (the driver is returned unchanged — the
country is refused without any fetch), no exception escapes, and the result
carries -1 in every count field and an empty listings list. -/
theorem C9_unconfigured_amended (d : Driver) (c : String) (h : COUNTRY_CONFIGS c = none) :
    scrape_country d c =
      ({ country := c, last_24h := -1, last_7d := -1, last_30d := -1,
         remote := -1, on_site := -1, job_listings := [] }, d) := by
  unfold scrape_country scrape_jobs_by_period scrape_remote_vs_onsite scrape_job_listings
  rw [h]

/-- Claim C9, witness: the amended theorem applied to the unconfigured
country "Atlantis". -/
theorem C9_unconfigured_amended_witness :
    scrape_country dBlank "Atlantis" =
      ({ country := "Atlantis", last_24h := -1, last_7d := -1, last_30d := -1,
         remote := -1, on_site := -1, job_listings := [] }, dBlank) :=
  C9_unconfigured_amended dBlank "Atlantis" (by decide)

/-- Claim C10, confirmed.  `extract_job_count` is total (the embedding is a
Lean function; every exception path in the source returns 0) and always
non-negative (first conjunct); it returns 0 when the challenge bypass fails
(second conjunct) and when no strategy matches (third conjunct).  Its
caller `scrape_jobs_by_period`, for a configured country and a successful
navigation, reports -1 exactly when the extracted count is 0 and the page
looks challenged (title contains "Just a moment" or URL contains
"challenge"); otherwise a returned 0 is passed through as a legitimate live
count (fourth conjunct). -/
theorem C10_extract_total :
    (∀ p, 0 ≤ extract_job_count p) ∧
    (∀ p, handle_cloudflare p = false → extract_job_count p = 0) ∧
    (∀ p, selectorStrategy p = none → titleStrategy p = none → textStrategy p = none →
      extract_job_count p = 0) ∧
    (∀ (d : Driver) (c : String) (cfg : CountryCfg) (days : Nat),
      COUNTRY_CONFIGS c = some cfg → (d.env d.fetchIdx).navRaises = false →
      (((scrape_jobs_by_period d c days).1 = -1 ↔
         (extract_job_count (d.env d.fetchIdx) = 0 ∧
          (strContains (d.env d.fetchIdx).title "Just a moment"
            || strContains (d.env d.fetchIdx).currentUrl "challenge") = true)) ∧
       (extract_job_count (d.env d.fetchIdx) = 0 →
        (strContains (d.env d.fetchIdx).title "Just a moment"
          || strContains (d.env d.fetchIdx).currentUrl "challenge") = false →
        (scrape_jobs_by_period d c days).1 = 0))) := by
  refine ⟨extract_nonneg, ?_, ?_, ?_⟩
  · intro p h
    unfold extract_job_count
    rw [h]
    rfl
  · intro p h1 h2 h3
    unfold extract_job_count
    split
    · rfl
    · rw [h1, h2, h3]
  · intro d c cfg days h hnav
    have hnn := extract_nonneg (d.env d.fetchIdx)
    unfold scrape_jobs_by_period
    rw [h]
    dsimp only [navigate]
    rw [hnav]
    simp only [Bool.false_eq_true, if_false]
    refine ⟨?_, ?_⟩
    · constructor
      · intro hminus
        by_cases hc : (extract_job_count (d.env d.fetchIdx) == 0 &&
            (strContains (d.env d.fetchIdx).title "Just a moment"
              || strContains (d.env d.fetchIdx).currentUrl "challenge")) = true
        · rw [Bool.and_eq_true, beq_iff_eq] at hc
          exact hc
        · rw [if_neg hc] at hminus
          dsimp only at hminus
          omega
      · intro hcond2
        have hc : (extract_job_count (d.env d.fetchIdx) == 0 &&
            (strContains (d.env d.fetchIdx).title "Just a moment"
              || strContains (d.env d.fetchIdx).currentUrl "challenge")) = true := by
          rw [Bool.and_eq_true, beq_iff_eq]
          exact hcond2
        rw [if_pos hc]
    · intro hz hcond
      have hc : ¬ ((extract_job_count (d.env d.fetchIdx) == 0 &&
          (strContains (d.env d.fetchIdx).title "Just a moment"
            || strContains (d.env d.fetchIdx).currentUrl "challenge")) = true) := by
        rw [hcond]
        simp
      rw [if_neg hc]
      dsimp only
      exact hz

/-- Claim C10, witness: the reclassification characterization applied to
the all-challenged session. -/
theorem C10_extract_total_witness :
    ((scrape_jobs_by_period dChal "Canada" 1).1 = -1 ↔
      (extract_job_count (dChal.env dChal.fetchIdx) = 0 ∧
       (strContains (dChal.env dChal.fetchIdx).title "Just a moment"
         || strContains (dChal.env dChal.fetchIdx).currentUrl "challenge") = true)) :=
  (C10_extract_total.2.2.2 dChal "Canada" canadaConfig 1 (by decide) (by decide)).1

end DaDashboard
